import Mathlib

/-!
Verification development for the opexvpn-checker repository.

The repository is a Node.js proxy-endpoint checker.  Its core pieces are
embedded here as executable Lean definitions:

* the probe/voting verification pass of `testProxyWithSettings`
  (src/index.js, first script variant, lines 178-241);
* the two-pass secure/insecure fallback of `testProxy`
  (src/index.js lines 243-304) with the in-place TLS mutation of
  `createSingboxConfig` (src/index.js lines 43-47);
* the per-field geo extraction chain (src/index.js lines 276-283);
* the `part_000` variant of `testProxy` (src/unnamed/part_000 lines 251-332),
  whose probe counting and chosen-probe selection differ from index.js;
* the third index.js script variant with `runSpeedtest`
  (src/index.js lines 1030-1295);
* `main`/`readLinks` exit behaviour (src/index.js lines 14-41, 328-368);
* the rescan scheduler, which has no source under src/ and is modelled
  from the specification.

JavaScript objects become structures, `undefined`/missing fields become
`Option`, JS truthiness of strings (only `""` is falsy) is modelled
explicitly, and the one in-place mutation in the code is modelled by
explicit state passing (the function returns the updated descriptor).
-/

namespace OpexVPN

/-! ## Data model: probe results (shape returned by `makeProxyRequest`)

`makeProxyRequest` (src/index.js lines 137-176) returns either
`{success: true, data, latency}` or `{success: false, error}`.  The payload
`data` is the JSON document of the geo service: `{ip, providers: {dbip,
ip2location, ipinfo, maxmind}}`, each provider a partial record of
`country`, `city`, `org_name`, `asn`. -/

structure ProviderGeo where
  country : Option String
  city : Option String
  orgName : Option String
  asn : Option String
deriving DecidableEq, Repr

structure Providers where
  dbip : Option ProviderGeo
  ip2location : Option ProviderGeo
  ipinfo : Option ProviderGeo
  maxmind : Option ProviderGeo
deriving DecidableEq, Repr

structure IpData where
  ip : Option String
  providers : Providers
deriving DecidableEq, Repr

structure ProbeResult where
  success : Bool
  data : Option IpData
  latency : Option Nat
  error : Option String
deriving DecidableEq, Repr

/-! ## Verification pass voting (src/index.js lines 202-219)

The code computes `successCount = [request1, request2].filter(r =>
r.success).length`; if it equals 1 it issues `request3`, recounts over the
three, and picks `finalResult`; the verdict is `successCount >= 2`. -/

/-- `[request1, request2].filter(r => r.success).length` (line 209). -/
def firstTwoSuccesses (r1 r2 : ProbeResult) : Nat :=
  (([r1, r2]).filter (fun r => r.success)).length

/-- Successes of an attempt list, as `list.filter(r => r.success).length`. -/
def successCount (rs : List ProbeResult) : Nat :=
  (rs.filter (fun r => r.success)).length

/-- The attempt sequence whose successes the verdict counts: `[r1, r2]`
when the first two agree, `[r1, r2, r3]` when the code issued the third
tie-break request (lines 209-217). -/
def countedProbes (r1 r2 r3 : ProbeResult) : List ProbeResult :=
  if firstTwoSuccesses r1 r2 = 1 then [r1, r2, r3] else [r1, r2]

/-- `finalResult` selection (lines 211-217): with a tie-break,
`[request1, request2, request3].find(r => r.success) || request3`;
otherwise `request2.success ? request2 : request1`. -/
def finalResultSel (r1 r2 r3 : ProbeResult) : ProbeResult :=
  if firstTwoSuccesses r1 r2 = 1 then
    (([r1, r2, r3]).find? (fun r => r.success)).getD r3
  else
    if r2.success then r2 else r1

/-- `isWorking = successCount >= 2` (line 219). -/
def isWorkingPass (r1 r2 r3 : ProbeResult) : Bool :=
  decide (2 ≤ successCount (countedProbes r1 r2 r3))

/-- C1: for every verification pass, the verdict is working iff at least 2
of the counted probe attempts succeeded; the counted attempt sequence has
length 3 exactly when the first two probes disagree (the tie-break was
issued) and length 2 exactly when they agree. -/
theorem voting_closure (r1 r2 r3 : ProbeResult) :
    (isWorkingPass r1 r2 r3 = true ↔ 2 ≤ successCount (countedProbes r1 r2 r3))
    ∧ ((countedProbes r1 r2 r3).length = 3 ↔ ¬ (r1.success = r2.success))
    ∧ ((countedProbes r1 r2 r3).length = 2 ↔ r1.success = r2.success) := by
  refine ⟨by simp [isWorkingPass], ?_, ?_⟩ <;>
    rcases h1 : r1.success <;> rcases h2 : r2.success <;>
      simp [countedProbes, firstTwoSuccesses, List.filter, h1, h2]

/-- Witness for C1: a concrete disagreeing pair issues the tie-break, so
the counted sequence has length 3. -/
theorem voting_closure_witness :
    (countedProbes ⟨true, none, some 120, none⟩ ⟨false, none, none, some "HTTP 502"⟩
      ⟨true, none, some 130, none⟩).length = 3 :=
  (voting_closure _ _ _).2.1.mpr (by decide)

/-! ## Chosen-probe selection (spec §4.2 vs the code)

The spec says the chosen probe is the most recent successful attempt, else
the most recent failed one.  We formalise the spec's rule and compare it
with the selections the two variants actually implement. -/

/-- The last element of `xs` satisfying `p`, i.e. the most recent matching
attempt in attempt order.  Written from the spec's words. -/
def lastSatisfying {α : Type} (p : α → Bool) (xs : List α) : Option α :=
  xs.reverse.find? p

/-- Spec §4.2's chosen probe: the most recent successful probe, and when
none succeeded, the most recent failed probe. -/
def specChosenProbe (rs : List ProbeResult) : Option ProbeResult :=
  match lastSatisfying (fun r => r.success) rs with
  | some p => some p
  | none => lastSatisfying (fun r => !r.success) rs

/-! ### The part_000 variant (src/unnamed/part_000 lines 256-290)

`performIpTest` returns `{success, data, ping, error}`.  `testProxy` there
branches on the first two tests; on a tie it issues a third and selects
`[test3, test2, test1].find(...)` for both the success data and the error
detail. -/

structure IpTest where
  success : Bool
  data : Option IpData
  ping : Nat
  error : Option String
deriving DecidableEq, Repr

/-- The attempt sequence counted by part_000's vote: two probes when they
agree, three after the tie-break (lines 266-279). -/
def p0counted (t1 t2 t3 : IpTest) : List IpTest :=
  if t1.success = t2.success then [t1, t2] else [t1, t2, t3]

/-- Outcome of part_000's test logic: `working`, whether the tie-break
ran, the test whose `data`/`ping` populate a working result (`chosen`),
and the test whose `error` is interpolated into the failure message
(`errSource`). -/
structure P0Verdict where
  working : Bool
  usedTieBreak : Bool
  chosen : Option IpTest
  errSource : Option IpTest
deriving DecidableEq, Repr

/-- part_000 `testProxy` lines 266-290: both succeed → working with
test2's data; both fail → not working with test2's error; otherwise run
test3, count successes over all three, and pick
`[test3, test2, test1].find(t => t.success)` (resp. `!t.success`). -/
def part000Verdict (t1 t2 t3 : IpTest) : P0Verdict :=
  if t1.success && t2.success then
    ⟨true, false, some t2, none⟩
  else if !t1.success && !t2.success then
    ⟨false, false, none, some t2⟩
  else
    let successes := (([t1, t2, t3]).filter (fun t => t.success)).length
    if 2 ≤ successes then
      ⟨true, true, ([t3, t2, t1]).find? (fun t => t.success), none⟩
    else
      ⟨false, true, none, ([t3, t2, t1]).find? (fun t => !t.success)⟩

/-- C2 counterexample: with attempts success–failure–success, index.js's
`finalResult = [r1, r2, r3].find(r => r.success)` picks probe 1, not the
most recent successful probe 3, so the claimed recency rule is false of
`testProxyWithSettings`. -/
theorem chosen_probe_recency_cex :
    ¬ (some (finalResultSel
        ⟨true, some ⟨some "1.1.1.1", ⟨none, none, none, none⟩⟩, some 100, none⟩
        ⟨false, none, none, some "HTTP 502"⟩
        ⟨true, some ⟨some "2.2.2.2", ⟨none, none, none, none⟩⟩, some 90, none⟩)
      = specChosenProbe (countedProbes
        ⟨true, some ⟨some "1.1.1.1", ⟨none, none, none, none⟩⟩, some 100, none⟩
        ⟨false, none, none, some "HTTP 502"⟩
        ⟨true, some ⟨some "2.2.2.2", ⟨none, none, none, none⟩⟩, some 90, none⟩)) := by
  decide

/-- C2 amended: in index.js's `testProxyWithSettings`, when both the first
probes succeed the chosen probe is probe 2; when both fail it is probe 1
(the earliest failure, not the most recent); when the tie-break ran it is
the EARLIEST successful probe in attempt order.  The part_000 variant does
follow the claimed recency rule: its working result uses the most recent
successful counted attempt and its failure message the most recent failed
one. -/
theorem chosen_probe_selection (r1 r2 r3 : ProbeResult) (t1 t2 t3 : IpTest) :
    (r1.success = true → r2.success = true → finalResultSel r1 r2 r3 = r2)
    ∧ (r1.success = false → r2.success = false → finalResultSel r1 r2 r3 = r1)
    ∧ (¬ (r1.success = r2.success) →
        some (finalResultSel r1 r2 r3)
          = (countedProbes r1 r2 r3).find? (fun r => r.success))
    ∧ ((part000Verdict t1 t2 t3).working = true →
        (part000Verdict t1 t2 t3).chosen
          = lastSatisfying (fun t => t.success) (p0counted t1 t2 t3))
    ∧ ((part000Verdict t1 t2 t3).working = false →
        (part000Verdict t1 t2 t3).errSource
          = lastSatisfying (fun t => !t.success) (p0counted t1 t2 t3)) := by
  refine ⟨?_, ?_, ?_, ?_, ?_⟩
  · intro h1 h2
    simp [finalResultSel, firstTwoSuccesses, List.filter, h1, h2]
  · intro h1 h2
    simp [finalResultSel, firstTwoSuccesses, List.filter, h1, h2]
  · intro h
    rcases h1 : r1.success <;> rcases h2 : r2.success <;>
      simp [h1, h2] at h ⊢ <;>
      simp [finalResultSel, countedProbes, firstTwoSuccesses, List.filter,
        List.find?, h1, h2]
  · intro h
    rcases h1 : t1.success <;> rcases h2 : t2.success <;>
      rcases h3 : t3.success <;>
      simp [part000Verdict, p0counted, lastSatisfying, List.filter,
        List.find?, h1, h2, h3] at h ⊢
  · intro h
    rcases h1 : t1.success <;> rcases h2 : t2.success <;>
      rcases h3 : t3.success <;>
      simp [part000Verdict, p0counted, lastSatisfying, List.filter,
        List.find?, h1, h2, h3] at h ⊢

/-- Witness for the amended C2: with two concrete successful probes the
chosen probe is probe 2, and part_000's both-fail verdict sources its
error from the most recent failed attempt. -/
theorem chosen_probe_selection_witness :
    finalResultSel
        ⟨true, some ⟨some "1.1.1.1", ⟨none, none, none, none⟩⟩, some 100, none⟩
        ⟨true, some ⟨some "2.2.2.2", ⟨none, none, none, none⟩⟩, some 90, none⟩
        ⟨false, none, none, some "HTTP 502"⟩
      = ⟨true, some ⟨some "2.2.2.2", ⟨none, none, none, none⟩⟩, some 90, none⟩ :=
  (chosen_probe_selection _ _ _
    ⟨false, none, 0, some "timeout"⟩ ⟨false, none, 0, some "timeout"⟩
    ⟨false, none, 0, some "timeout"⟩).1 rfl rfl

/-! ## Geo field resolution (src/index.js lines 276-283)

The code computes each result field as a JavaScript `||` chain over the
four providers, e.g. `providers.dbip?.country || providers.ip2location?.country
|| providers.ipinfo?.country || providers.maxmind?.country || 'N/A'`.
In JS, a missing provider or field is `undefined` and an empty string is
falsy, so the chain takes the first present, non-empty value. -/

/-- JS `x || y` on optional strings: `undefined` and `""` fall through. -/
def jsOrStr : Option String → Option String → Option String
  | some s, y => if s = "" then y else some s
  | none, y => y

/-- JS `x || dflt` with a string default. -/
def jsOrD : Option String → String → String
  | some s, dflt => if s = "" then dflt else s
  | none, dflt => dflt

/-- The four-provider `||` chain ending in `'N/A'`. -/
def fieldChain (a b c d : Option String) : String :=
  jsOrD (jsOrStr a (jsOrStr b (jsOrStr c d))) "N/A"

def countryOf (ps : Providers) : String :=
  fieldChain (ps.dbip.bind (fun p => p.country)) (ps.ip2location.bind (fun p => p.country))
    (ps.ipinfo.bind (fun p => p.country)) (ps.maxmind.bind (fun p => p.country))

def cityOf (ps : Providers) : String :=
  fieldChain (ps.dbip.bind (fun p => p.city)) (ps.ip2location.bind (fun p => p.city))
    (ps.ipinfo.bind (fun p => p.city)) (ps.maxmind.bind (fun p => p.city))

def asnOrgOf (ps : Providers) : String :=
  fieldChain (ps.dbip.bind (fun p => p.orgName)) (ps.ip2location.bind (fun p => p.orgName))
    (ps.ipinfo.bind (fun p => p.orgName)) (ps.maxmind.bind (fun p => p.orgName))

def asnNumberOf (ps : Providers) : String :=
  fieldChain (ps.dbip.bind (fun p => p.asn)) (ps.ip2location.bind (fun p => p.asn))
    (ps.ipinfo.bind (fun p => p.asn)) (ps.maxmind.bind (fun p => p.asn))

/-- Per-field provider values in the code's fixed order
dbip, ip2location, ipinfo, maxmind. -/
def countryVals (ps : Providers) : List (Option String) :=
  [ps.dbip.bind (fun p => p.country), ps.ip2location.bind (fun p => p.country),
   ps.ipinfo.bind (fun p => p.country), ps.maxmind.bind (fun p => p.country)]

def cityVals (ps : Providers) : List (Option String) :=
  [ps.dbip.bind (fun p => p.city), ps.ip2location.bind (fun p => p.city),
   ps.ipinfo.bind (fun p => p.city), ps.maxmind.bind (fun p => p.city)]

def asnOrgVals (ps : Providers) : List (Option String) :=
  [ps.dbip.bind (fun p => p.orgName), ps.ip2location.bind (fun p => p.orgName),
   ps.ipinfo.bind (fun p => p.orgName), ps.maxmind.bind (fun p => p.orgName)]

def asnNumberVals (ps : Providers) : List (Option String) :=
  [ps.dbip.bind (fun p => p.asn), ps.ip2location.bind (fun p => p.asn),
   ps.ipinfo.bind (fun p => p.asn), ps.maxmind.bind (fun p => p.asn)]

/-- The non-empty reported values of a field, in provider-priority order. -/
def truthyVals (vals : List (Option String)) : List String :=
  (vals.filterMap id).filter (fun s => ¬ s = "")

/-- Occurrence count of one value among the reported values. -/
def countVal (tv : List String) (v : String) : Nat :=
  (tv.filter (fun w => w = v)).length

/-- Spec §4.3's resolver, written from the spec's words: the non-empty
value with the strictly highest occurrence count (and count ≥ 2) wins;
otherwise the first provider in the fixed priority order with a non-empty
value; otherwise the field stays empty. -/
def specResolveField (vals : List (Option String)) : String :=
  let tv := truthyVals vals
  match tv.find? (fun v =>
      decide (2 ≤ countVal tv v ∧ ∀ w ∈ tv, w ≠ v → countVal tv w < countVal tv v)) with
  | some v => v
  | none => (tv.head?).getD ""

/-- The first present, non-empty value in provider-priority order, with
the code's `'N/A'` default: what the `||` chain actually computes. -/
def priorityFirst (vals : List (Option String)) : String :=
  ((truthyVals vals).head?).getD "N/A"

/-- C3 counterexample: providers `{dbip: "DE", ip2location: "US",
ipinfo: "US", maxmind: "US"}`.  The majority rule resolves the country to
"US" (3 votes against 1), but the code returns dbip's "DE": the code
never counts votes. -/
theorem geo_majority_cex :
    ¬ (countryOf
        ⟨some ⟨some "DE", none, none, none⟩, some ⟨some "US", none, none, none⟩,
         some ⟨some "US", none, none, none⟩, some ⟨some "US", none, none, none⟩⟩
      = specResolveField (countryVals
        ⟨some ⟨some "DE", none, none, none⟩, some ⟨some "US", none, none, none⟩,
         some ⟨some "US", none, none, none⟩, some ⟨some "US", none, none, none⟩⟩)) := by
  decide

/-- The nested JS `||` chain takes the first non-empty value. -/
theorem fieldChain_eq_priorityFirst (a b c d : Option String) :
    fieldChain a b c d = priorityFirst [a, b, c, d] := by
  rcases a with _ | sa <;> rcases b with _ | sb <;> rcases c with _ | sc <;>
    rcases d with _ | sd <;>
    simp [fieldChain, jsOrStr, jsOrD, priorityFirst, truthyVals] <;>
    split_ifs <;> simp_all <;> split_ifs <;> simp_all

/-- C3 amended: each resolved geo field equals the value of the first
provider in the fixed priority order dbip, ip2location, ipinfo, maxmind
that has a present non-empty value for that field, and `'N/A'` when none
has one.  No occurrence counting takes place. -/
theorem geo_priority_resolution (ps : Providers) :
    countryOf ps = priorityFirst (countryVals ps)
    ∧ cityOf ps = priorityFirst (cityVals ps)
    ∧ asnOrgOf ps = priorityFirst (asnOrgVals ps)
    ∧ asnNumberOf ps = priorityFirst (asnNumberVals ps) :=
  ⟨fieldChain_eq_priorityFirst _ _ _ _, fieldChain_eq_priorityFirst _ _ _ _,
   fieldChain_eq_priorityFirst _ _ _ _, fieldChain_eq_priorityFirst _ _ _ _⟩

/-! ## Outbound descriptor and the insecure-TLS mutation
(src/index.js lines 43-69)

`createSingboxConfig(outbound, allowInsecure)` executes
`if (allowInsecure && outbound.tls && outbound.tls.enabled)
outbound.tls.insecure = true;` — an in-place mutation of the shared
descriptor object — and then builds the config around it.  The mutation is
modelled by explicit state passing: the function returns both the config
and the descriptor object's state after the call. -/

structure TlsSettings where
  enabled : Bool
  insecure : Bool
deriving DecidableEq, Repr

structure Outbound where
  tag : String
  tls : Option TlsSettings
deriving DecidableEq, Repr

/-- JS `outbound.tls && outbound.tls.enabled`. -/
def tlsEnabledJS (ob : Outbound) : Bool :=
  match ob.tls with
  | some t => t.enabled
  | none => false

/-- The descriptor state after lines 44-46. -/
def applyInsecure (ob : Outbound) (allowInsecure : Bool) : Outbound :=
  match ob.tls with
  | some t =>
      if allowInsecure && t.enabled then { ob with tls := some { t with insecure := true } }
      else ob
  | none => ob

/-- The parts of the generated sing-box config that depend on the
descriptor (lines 48-68): the single-element `outbounds` array and the
route rule's outbound tag. -/
structure SingboxConfig where
  outbounds : List Outbound
  routeOutbound : String
deriving DecidableEq, Repr

/-- `createSingboxConfig` with the mutation made explicit: returns the
config and the descriptor's state after the call. -/
def createSingboxConfig (ob : Outbound) (allowInsecure : Bool) : SingboxConfig × Outbound :=
  let mutated := applyInsecure ob allowInsecure
  (⟨[mutated], mutated.tag⟩, mutated)

/-- C5 counterexample: a TLS-enabled descriptor with `insecure: false` is
changed in place by the relaxed-variant call — afterwards its TLS settings
read `insecure: true`, so the canonical descriptor is NOT left unchanged. -/
theorem descriptor_mutation_cex :
    ¬ ((createSingboxConfig ⟨"proxy-1", some ⟨true, false⟩⟩ true).2
        = ⟨"proxy-1", some ⟨true, false⟩⟩) := by
  decide

/-- C5 amended: the relaxed variant is produced by mutating the canonical
descriptor in place.  A strict-mode call leaves the descriptor unchanged,
but a relaxed call changes it (setting `tls.insecure := true`) in exactly
the cases where TLS is present, enabled and not already insecure. -/
theorem descriptor_mutation (ob : Outbound) :
    (createSingboxConfig ob false).2 = ob
    ∧ ((createSingboxConfig ob true).2 = ob ↔
        ∀ t, ob.tls = some t → (t.enabled = false ∨ t.insecure = true)) := by
  rcases ob with ⟨tag, _ | t⟩
  · simp [createSingboxConfig, applyInsecure]
  · rcases t with ⟨en, ins⟩
    rcases en <;> rcases ins <;>
      simp [createSingboxConfig, applyInsecure]

/-- Witness for C5's amended theorem: a descriptor without TLS is left
unchanged even by the relaxed call. -/
theorem descriptor_mutation_witness :
    (createSingboxConfig ⟨"plain", none⟩ true).2 = ⟨"plain", none⟩ :=
  (descriptor_mutation ⟨"plain", none⟩).2.mpr (by intro t h; cases h)

/-! ## One verification pass (src/index.js lines 178-241)

`testProxyWithSettings` writes the config (which may fail), starts
sing-box (which may fail), then issues a discarded warm-up request
(`await makeProxyRequest();` on line 203 binds nothing) followed by the
counted probes.  The external world of one pass — whether config
write/startup succeeded and what the four requests would return — is a
`PassEnv`. -/

inductive StartupOutcome
  | ok
  | writeFail (msg : String)
  | startFail (msg : String)
deriving DecidableEq, Repr

structure PassEnv where
  startup : StartupOutcome
  warmup : ProbeResult
  r1 : ProbeResult
  r2 : ProbeResult
  r3 : ProbeResult
deriving DecidableEq, Repr

/-- Shape of `testProxyWithSettings`' return value.  The two early-error
returns carry no `insecure` property; reading it yields `undefined`
(falsy), modelled as `false`. -/
structure PassResult where
  success : Bool
  result : Option ProbeResult
  insecure : Bool
  error : Option String
deriving DecidableEq, Repr

/-- `testProxyWithSettings` (lines 178-241), with the descriptor state
threaded through (the `createSingboxConfig` call on line 180 may mutate
it). -/
def testProxyWithSettings (ob : Outbound) (allowInsecure : Bool) (env : PassEnv) :
    PassResult × Outbound :=
  let mutated := (createSingboxConfig ob allowInsecure).2
  match env.startup with
  | .writeFail msg =>
      (⟨false, none, false, some ("Failed to write config: " ++ msg)⟩, mutated)
  | .startFail msg =>
      (⟨false, none, false, some ("Sing-box startup failed: " ++ msg)⟩, mutated)
  | .ok =>
      (⟨isWorkingPass env.r1 env.r2 env.r3,
        some (finalResultSel env.r1 env.r2 env.r3), allowInsecure, none⟩, mutated)

/-- The probe requests one pass issues through the proxy, in order:
the warm-up, probe 1, probe 2, and the tie-break probe exactly when the
first two disagree (lines 202-213). -/
def passIssued (env : PassEnv) : List ProbeResult :=
  if firstTwoSuccesses env.r1 env.r2 = 1 then [env.warmup, env.r1, env.r2, env.r3]
  else [env.warmup, env.r1, env.r2]

/-- C6 counterexample: in the part_000 variant the probe labeled
"(warm-up)" is the first counted test.  Changing only its outcome — from
success to failure, with the later probes fixed at failure and success —
flips the verdict, so its outcome is not discarded. -/
theorem warmup_discarded_cex :
    ¬ ((part000Verdict ⟨true, none, 50, none⟩
          ⟨false, none, 0, some "Request timed out"⟩ ⟨true, none, 60, none⟩).working
        = (part000Verdict ⟨false, none, 0, some "connect ECONNREFUSED"⟩
          ⟨false, none, 0, some "Request timed out"⟩ ⟨true, none, 60, none⟩).working) := by
  decide

/-- C6 amended: in index.js's `testProxyWithSettings` exactly one warm-up
probe is issued before probe 1, it is never part of the counted sequence,
and the pass outcome is unchanged under any change of the warm-up result;
in the part_000 variant, by contrast, the first probe (the one its log
labels "warm-up") is counted in the tally and verdict. -/
theorem warmup_discarded (ob : Outbound) (allowInsecure : Bool) (env env2 : PassEnv) :
    (passIssued env = env.warmup :: countedProbes env.r1 env.r2 env.r3)
    ∧ (env.startup = env2.startup → env.r1 = env2.r1 → env.r2 = env2.r2 →
        env.r3 = env2.r3 →
        (testProxyWithSettings ob allowInsecure env).1
          = (testProxyWithSettings ob allowInsecure env2).1) := by
  constructor
  · by_cases h : firstTwoSuccesses env.r1 env.r2 = 1 <;>
      simp [passIssued, countedProbes, h]
  · intro h0 h1 h2 h3
    rcases hs : env.startup <;>
      simp [testProxyWithSettings, ← h0, ← h1, ← h2, ← h3, hs]

/-- Witness for the amended C6: two concrete environments that differ only
in the warm-up outcome produce the same pass result. -/
theorem warmup_discarded_witness :
    (testProxyWithSettings ⟨"p", none⟩ false
        ⟨.ok, ⟨true, none, some 40, none⟩, ⟨true, none, some 50, none⟩,
         ⟨true, none, some 60, none⟩, ⟨false, none, none, some "HTTP 502"⟩⟩).1
      = (testProxyWithSettings ⟨"p", none⟩ false
        ⟨.ok, ⟨false, none, none, some "Invalid JSON response"⟩, ⟨true, none, some 50, none⟩,
         ⟨true, none, some 60, none⟩, ⟨false, none, none, some "HTTP 502"⟩⟩).1 :=
  (warmup_discarded ⟨"p", none⟩ false _ _).2 rfl rfl rfl rfl

/-! ## The two-pass secure/insecure fallback and the final record
(src/index.js lines 243-326, first script variant) -/

inductive ConvOutcome
  | fail (msg : String)
  | ok (ob : Outbound)
deriving DecidableEq, Repr

/-- `extractNameFromLink` (lines 306-309): the regex `/#(.+)$/` captures
everything after the first `#` provided it is non-empty.  (URI-decoding of
the fragment is not modelled; it does not affect emptiness.) -/
def extractNameFromLink (link : String) : Option String :=
  match link.splitOn "#" with
  | [] => none
  | [_] => none
  | _ :: rest =>
      let s := String.intercalate "#" rest
      if s = "" then none else some s

/-- `outbound.tag || extractNameFromLink(link) || ` Proxy n ` ` (line 256). -/
def proxyName (ob : Outbound) (link : String) (index : Nat) : String :=
  jsOrD (jsOrStr (some ob.tag) (extractNameFromLink link))
    ("Proxy " ++ toString (index + 1))

/-- The per-endpoint result record.  The first script variant's records
carry no download/upload fields (`none` here); the speedtest-bearing
variant fills them.  The wall-clock `timestamp` field is not modelled. -/
structure ResultRecord where
  status : String
  name : String
  fullLink : String
  ipAddress : String
  countryCode : String
  city : String
  asnOrganization : String
  asnNumber : String
  pingMs : String
  downloadMbps : Option String
  uploadMbps : Option String
  insecure : Bool
  error : Option String
deriving DecidableEq, Repr

/-- `createErrorResult` (lines 311-326): every field `'N/A'`, and
`insecure: false` unconditionally. -/
def createErrorResultV1 (link : String) (error : Option String) (name : String) :
    ResultRecord :=
  ⟨"error", name, link, "N/A", "N/A", "N/A", "N/A", "N/A", "N/A", none, none, false, error⟩

/-- Error text used on the not-working branch (line 301):
`testResult.error || (testResult.result && testResult.result.error) ||
'Unknown test failure'`. -/
def v1ErrorMessage (tr : PassResult) : String :=
  jsOrD (jsOrStr tr.error (tr.result.bind (fun r => r.error))) "Unknown test failure"

/-- `testProxy` (lines 243-304): convert the link, run a strict pass, on
failure retry relaxed when the descriptor declares TLS, then build the
final record.  `env b` is the world of the pass with `allowInsecure = b`. -/
def testProxyV1 (conv : ConvOutcome) (env : Bool → PassEnv) (link : String) (index : Nat) :
    ResultRecord :=
  match conv with
  | .fail msg => createErrorResultV1 link (some ("Conversion failed: " ++ msg)) "Unknown"
  | .ok ob =>
      let name := proxyName ob link index
      let first := (testProxyWithSettings ob false (env false)).1
      let tr := if !first.success && tlsEnabledJS ob
        then (testProxyWithSettings ob true (env true)).1 else first
      if tr.success then
        let ipData := (tr.result.bind (fun r => r.data)).getD ⟨none, ⟨none, none, none, none⟩⟩
        ⟨"working", name, link, jsOrD ipData.ip "N/A",
          countryOf ipData.providers, cityOf ipData.providers,
          asnOrgOf ipData.providers, asnNumberOf ipData.providers,
          (match tr.result.bind (fun r => r.latency) with
            | some l => toString l
            | none => "N/A"),
          none, none, tr.insecure, none⟩
      else createErrorResultV1 link (some (v1ErrorMessage tr)) name

/-- The `allowInsecure` flags of the passes `testProxy` actually runs, in
order (lines 263-268): always the strict pass; the relaxed pass exactly
when the strict pass failed and the descriptor declares TLS. -/
def passFlagsRun (ob : Outbound) (env : Bool → PassEnv) : List Bool :=
  let first := (testProxyWithSettings ob false (env false)).1
  if !first.success && tlsEnabledJS ob then [false, true] else [false]

/-- A pass result's `insecure` equals its `allowInsecure` argument
whenever the pass reached the probe phase (in particular whenever it
succeeded); the early-error returns read as `false`. -/
theorem tpws_success_insecure (ob : Outbound) (a : Bool) (env : PassEnv)
    (h : (testProxyWithSettings ob a env).1.success = true) :
    (testProxyWithSettings ob a env).1.insecure = a := by
  rcases hs : env.startup <;> simp [testProxyWithSettings, hs] at h ⊢

/-- A strict pass always reports `insecure = false`. -/
theorem tpws_strict_insecure_false (ob : Outbound) (env : PassEnv) :
    (testProxyWithSettings ob false env).1.insecure = false := by
  rcases hs : env.startup <;> simp [testProxyWithSettings, hs]

/-- C4: for a descriptor that declares TLS, the relaxed-variant pass runs
if and only if the strict pass yields not working, and a working final
record shows which variant succeeded: `insecure = false` when the strict
pass succeeded, `insecure = true` when only the relaxed retry did. -/
theorem insecure_fallback (ob : Outbound) (env : Bool → PassEnv) (link : String)
    (index : Nat) (htls : tlsEnabledJS ob = true) :
    (passFlagsRun ob env = [false, true]
        ↔ (testProxyWithSettings ob false (env false)).1.success = false)
    ∧ ((testProxyV1 (.ok ob) env link index).status = "working" →
        ((testProxyWithSettings ob false (env false)).1.success = true
            ∧ (testProxyV1 (.ok ob) env link index).insecure = false)
        ∨ ((testProxyWithSettings ob false (env false)).1.success = false
            ∧ (testProxyWithSettings ob true (env true)).1.success = true
            ∧ (testProxyV1 (.ok ob) env link index).insecure = true)) := by
  constructor
  · by_cases hf : (testProxyWithSettings ob false (env false)).1.success <;>
      simp [passFlagsRun, htls, hf]
  · intro hw
    by_cases hf : (testProxyWithSettings ob false (env false)).1.success
    · left
      refine ⟨hf, ?_⟩
      simp only [testProxyV1, hf, htls, Bool.not_true, Bool.false_and, if_neg] at hw ⊢
      by_cases h2 : (testProxyWithSettings ob false (env false)).1.success
      · simp [h2] at hw ⊢
        simp [tpws_strict_insecure_false]
      · exact absurd hf (by simp [h2])
    · right
      have h2 : (testProxyWithSettings ob true (env true)).1.success = true := by
        by_contra h2
        have hst : (testProxyV1 (.ok ob) env link index).status = "error" := by
          simp [testProxyV1, htls, hf, h2, createErrorResultV1]
        exact absurd (hw.symm.trans hst) (by decide)
      refine ⟨by simpa using hf, h2, ?_⟩
      simp only [testProxyV1, htls]
      simp [hf, h2]
      exact tpws_success_insecure ob true (env true) h2

/-- Witness for C4: a TLS-declaring endpoint whose strict pass fails on a
certificate error and whose relaxed pass succeeds yields a working record
with `insecure = true`; the relaxed pass was indeed run. -/
theorem insecure_fallback_witness :
    (testProxyV1 (.ok ⟨"tls-proxy", some ⟨true, false⟩⟩)
        (fun b => if b then
            ⟨.ok, ⟨true, none, some 80, none⟩, ⟨true, none, some 90, none⟩,
              ⟨true, none, some 95, none⟩, ⟨true, none, some 99, none⟩⟩
          else
            ⟨.ok, ⟨false, none, none, some "TLS handshake failed"⟩,
              ⟨false, none, none, some "TLS handshake failed"⟩,
              ⟨false, none, none, some "TLS handshake failed"⟩,
              ⟨false, none, none, some "TLS handshake failed"⟩⟩)
        "vless://host#name" 0).insecure = true := by
  have h := (insecure_fallback ⟨"tls-proxy", some ⟨true, false⟩⟩
    (fun b => if b then
        ⟨.ok, ⟨true, none, some 80, none⟩, ⟨true, none, some 90, none⟩,
          ⟨true, none, some 95, none⟩, ⟨true, none, some 99, none⟩⟩
      else
        ⟨.ok, ⟨false, none, none, some "TLS handshake failed"⟩,
          ⟨false, none, none, some "TLS handshake failed"⟩,
          ⟨false, none, none, some "TLS handshake failed"⟩,
          ⟨false, none, none, some "TLS handshake failed"⟩⟩)
    "vless://host#name" 0 rfl).2 (by decide)
  rcases h with ⟨h1, _⟩ | ⟨_, _, h3⟩
  · exact absurd h1 (by decide)
  · exact h3

/-- C10: every error-status record produced by `testProxy` — conversion
failure, startup failure, or a not-working verdict, including a failed
relaxed-variant second pass — carries `insecure = false`, because
`createErrorResult` hardcodes it. -/
theorem error_record_insecure_false (conv : ConvOutcome) (env : Bool → PassEnv)
    (link : String) (index : Nat)
    (h : (testProxyV1 conv env link index).status = "error") :
    (testProxyV1 conv env link index).insecure = false := by
  rcases conv with msg | ob
  · rfl
  · simp only [testProxyV1] at h ⊢
    by_cases hf : (testProxyWithSettings ob false (env false)).1.success <;>
      by_cases ht : tlsEnabledJS ob <;>
      by_cases h2 : (testProxyWithSettings ob true (env true)).1.success <;>
        simp [hf, ht, h2, createErrorResultV1] at h ⊢

/-- Witness for C10: an endpoint whose strict pass fails and whose relaxed
(insecure) second pass also fails yields an error record with
`insecure = false`. -/
theorem error_record_insecure_false_witness :
    (testProxyV1 (.ok ⟨"tls-proxy", some ⟨true, false⟩⟩)
        (fun _ => ⟨.ok, ⟨false, none, none, some "timeout"⟩,
          ⟨false, none, none, some "timeout"⟩, ⟨false, none, none, some "timeout"⟩,
          ⟨false, none, none, some "timeout"⟩⟩)
        "trojan://host#x" 3).insecure = false :=
  error_record_insecure_false _ _ _ _ (by decide)

/-! ## Speedtest and the speedtest-bearing script variant
(src/index.js lines 1030-1295, third script variant)

`runSpeedtest` wraps everything in try/catch and always resolves to a
record; the external measurements (curl connectivity test, download loop,
upload test) are its boundary, modelled by `SpeedRaw`. -/

structure SpeedtestRec where
  pingMs : String
  downloadMbps : String
  uploadMbps : String
deriving DecidableEq, Repr

/-- What the underlying measurements did: the proxy connectivity probe
failed (lines 1036-1057); or the download/upload loops produced a best
download speed and/or an upload speed (lines 1060-1140), `none` meaning
the corresponding `'N/A'` is kept; or something threw and the outer catch
ran (lines 1147-1154). -/
inductive SpeedRaw
  | connectFail
  | measured (down : Option String) (up : Option String)
  | thrown (msg : String)
deriving DecidableEq, Repr

/-- `runSpeedtest` (lines 1030-1155): every path returns a record —
failures yield `'N/A'` readings, never an exception; `ping_ms` is `'N/A'`
on every return path of this variant. -/
def runSpeedtestV3 : SpeedRaw → SpeedtestRec
  | .connectFail => ⟨"N/A", "N/A", "N/A"⟩
  | .measured d u => ⟨"N/A", d.getD "N/A", u.getD "N/A"⟩
  | .thrown _ => ⟨"N/A", "N/A", "N/A"⟩

/-- `createErrorResult` of the speedtest-bearing variant (lines
1304-1321): like the first variant plus `'N/A'` download/upload fields. -/
def createErrorResultV3 (link : String) (error : Option String) (name : String) :
    ResultRecord :=
  ⟨"error", name, link, "N/A", "N/A", "N/A", "N/A", "N/A", "N/A",
    some "N/A", some "N/A", false, error⟩

/-- `testProxy` of the speedtest-bearing variant (lines 1228-1295): same
conversion and two-pass fallback, then on a working verdict run the
speedtest and merge its readings into the record. -/
def testProxyV3 (conv : ConvOutcome) (env : Bool → PassEnv) (sp : SpeedRaw)
    (link : String) (index : Nat) : ResultRecord :=
  match conv with
  | .fail msg => createErrorResultV3 link (some ("Conversion failed: " ++ msg)) "Unknown"
  | .ok ob =>
      let name := proxyName ob link index
      let first := (testProxyWithSettings ob false (env false)).1
      let tr := if !first.success && tlsEnabledJS ob
        then (testProxyWithSettings ob true (env true)).1 else first
      if tr.success then
        let st := runSpeedtestV3 sp
        let ipData := (tr.result.bind (fun r => r.data)).getD ⟨none, ⟨none, none, none, none⟩⟩
        ⟨"working", name, link, jsOrD ipData.ip "N/A",
          countryOf ipData.providers, cityOf ipData.providers,
          asnOrgOf ipData.providers, asnNumberOf ipData.providers,
          (match tr.result.bind (fun r => r.latency) with
            | some l => toString l
            | none => st.pingMs),
          some st.downloadMbps, some st.uploadMbps, tr.insecure, none⟩
      else createErrorResultV3 link tr.error name

/-! ### part_000's speedtest handling (src/unnamed/part_000 lines 181-204,
292-317) -/

inductive P0SpeedRaw
  | ok (down up : String)
  | err (msg : String)
deriving DecidableEq, Repr

structure P0Speed where
  downloadMbps : String
  uploadMbps : String
  error : Option String
deriving DecidableEq, Repr

/-- `performSpeedTest` (lines 181-204): success yields the two readings;
failure is caught and yields `'0.00'` readings plus an error string. -/
def performSpeedTestP0 : P0SpeedRaw → P0Speed
  | .ok d u => ⟨d, u, none⟩
  | .err msg => ⟨"0.00", "0.00", some ("Speed test failed: " ++ msg)⟩

/-- Slice of part_000's final JSON record relevant to the claims. -/
structure P0Record where
  status : String
  pingMs : String
  downloadMbps : String
  uploadMbps : String
  error : Option String
deriving DecidableEq, Repr

/-- part_000 `testProxy` result processing (lines 292-321): on a working
verdict the status is set to `'working'`, the speedtest runs, its readings
are merged, and a speedtest error is recorded in `error` without touching
the status; on a not-working verdict the record keeps the `'error'` status
and the defaults.  (The code wraps the failing test's error detail in a
fixed message; only the detail is modelled.) -/
def part000Result (t1 t2 t3 : IpTest) (spRaw : P0SpeedRaw) : P0Record :=
  let v := part000Verdict t1 t2 t3
  if v.working then
    let sp := performSpeedTestP0 spRaw
    ⟨"working",
      (match v.chosen with
        | some t => toString t.ping
        | none => "N/A"),
      sp.downloadMbps, sp.uploadMbps, sp.error⟩
  else
    ⟨"error", "N/A", "0.00", "0.00", v.errSource.bind (fun t => t.error)⟩

/-- C8: the recorded status never depends on the throughput measurement —
a working verdict stays `working` whatever the speedtest did — and a
thrown speedtest leaves `'N/A'` readings in a working record; likewise
part_000 keeps `'working'` when its speedtest fails. -/
theorem speedtest_no_downgrade (conv : ConvOutcome) (env : Bool → PassEnv)
    (link : String) (index : Nat) (sp sp2 : SpeedRaw) (t1 t2 t3 : IpTest)
    (msg msg2 : String) :
    ((testProxyV3 conv env sp link index).status
        = (testProxyV3 conv env sp2 link index).status)
    ∧ ((testProxyV3 conv env (.thrown msg) link index).status = "working" →
        (testProxyV3 conv env (.thrown msg) link index).downloadMbps = some "N/A"
        ∧ (testProxyV3 conv env (.thrown msg) link index).uploadMbps = some "N/A")
    ∧ ((part000Verdict t1 t2 t3).working = true →
        (part000Result t1 t2 t3 (.err msg2)).status = "working") := by
  refine ⟨?_, ?_, ?_⟩
  · rcases conv with m | ob
    · rfl
    · simp only [testProxyV3]
      split <;> split <;> simp_all
  · intro hw
    rcases conv with m | ob
    · simp [testProxyV3, createErrorResultV3] at hw
    · simp only [testProxyV3] at hw ⊢
      split at hw <;> split at hw <;>
        simp_all [runSpeedtestV3, createErrorResultV3]
  · intro hv
    simp [part000Result, hv]

/-- Witness for C8: a concrete endpoint that passes verification keeps
status `working` and gets `'N/A'` readings when the speedtest throws. -/
theorem speedtest_no_downgrade_witness :
    (testProxyV3 (.ok ⟨"p", none⟩)
        (fun _ => ⟨.ok, ⟨true, none, some 40, none⟩, ⟨true, none, some 50, none⟩,
          ⟨true, none, some 60, none⟩, ⟨true, none, some 70, none⟩⟩)
        (.thrown "socket hang up") "ss://host#p" 0).downloadMbps = some "N/A"
    ∧ (testProxyV3 (.ok ⟨"p", none⟩)
        (fun _ => ⟨.ok, ⟨true, none, some 40, none⟩, ⟨true, none, some 50, none⟩,
          ⟨true, none, some 60, none⟩, ⟨true, none, some 70, none⟩⟩)
        (.thrown "socket hang up") "ss://host#p" 0).uploadMbps = some "N/A" :=
  (speedtest_no_downgrade (.ok ⟨"p", none⟩)
    (fun _ => ⟨.ok, ⟨true, none, some 40, none⟩, ⟨true, none, some 50, none⟩,
      ⟨true, none, some 60, none⟩, ⟨true, none, some 70, none⟩⟩)
    "ss://host#p" 0 .connectFail .connectFail
    ⟨true, none, 0, none⟩ ⟨true, none, 0, none⟩ ⟨true, none, 0, none⟩
    "socket hang up" "x").2.1 (by decide)

/-! ## Run-level behaviour: `readLinks` and `main`
(src/index.js lines 14-41, 328-368) -/

/-- Boundary of `readLinks`: either reading `links.txt` (or fetching the
subscription it names) threw — the catch on lines 37-40 returns `[]` — or
a list of candidate links was produced. -/
inductive LinksLoad
  | failure (msg : String)
  | loaded (links : List String)
deriving DecidableEq, Repr

def readLinksModel : LinksLoad → List String
  | .failure _ => []
  | .loaded ls => ls

/-- Observable outcome of one `main` run: the per-endpoint results, whether
the results file was written, whether the no-links error was logged, and
the Node process exit status. -/
structure RunOutcome where
  results : List ResultRecord
  savedReport : Bool
  loggedNoLinks : Bool
  exitCode : Nat
deriving DecidableEq, Repr

/-- `main` (lines 328-368): with no links it logs an error and returns;
otherwise it tests every link in order and writes the results file.  The
script never calls `process.exit` and the entry point is
`main().catch(console.error)` (line 368), so the Node process terminates
with status 0 on both paths; `exitCode` records that status. -/
def mainModel (load : LinksLoad) (runOne : Nat → String → ResultRecord) : RunOutcome :=
  let links := readLinksModel load
  if links.length = 0 then ⟨[], false, true, 0⟩
  else ⟨links.mapIdx (fun i l => runOne i l), true, false, 0⟩

/-- C7 counterexample: a run whose link list is unreadable terminates
early, but its process status is 0 — not a non-zero-equivalent status; it
is the very same status a completed run with failing endpoints gets. -/
theorem exit_status_cex :
    ¬ ((mainModel (.failure "ENOENT: no such file or directory, open links.txt")
          (fun _ l => createErrorResultV1 l (some "unreachable") "Unknown")).exitCode ≠ 0)
    ∧ (mainModel (.failure "ENOENT: no such file or directory, open links.txt")
          (fun _ l => createErrorResultV1 l (some "unreachable") "Unknown")).exitCode
      = (mainModel (.loaded ["vless://host#a"])
          (fun _ l => createErrorResultV1 l (some "Conversion failed: bad") "Unknown")).exitCode := by
  exact ⟨by decide, rfl⟩

/-- C7 amended: a run that cannot load any candidate identities terminates
early — it writes no results file, produces no outcomes and logs the
no-links error — but exits with the same zero-equivalent status as a
completed run; a completed run with failing endpoints also exits zero,
recording one outcome per link. -/
theorem exit_status (load : LinksLoad) (runOne : Nat → String → ResultRecord) :
    ((readLinksModel load).length = 0 →
      mainModel load runOne = ⟨[], false, true, 0⟩)
    ∧ (¬ (readLinksModel load).length = 0 →
        (mainModel load runOne).savedReport = true
        ∧ (mainModel load runOne).results
            = (readLinksModel load).mapIdx (fun i l => runOne i l)
        ∧ (mainModel load runOne).exitCode = 0)
    ∧ (mainModel load runOne).exitCode = 0 := by
  by_cases h : (readLinksModel load).length = 0 <;> simp [mainModel, h]

/-- Witness for the amended C7: the unreadable-list run produces the early
outcome with exit status 0. -/
theorem exit_status_witness :
    mainModel (.failure "EACCES: permission denied")
        (fun _ l => createErrorResultV1 l none "Unknown") = ⟨[], false, true, 0⟩ :=
  (exit_status (.failure "EACCES: permission denied")
    (fun _ l => createErrorResultV1 l none "Unknown")).1 rfl

/-! ## Rescan scheduler

No rescan scheduler exists under src/ — no source file keeps per-endpoint
check history or decides due-ness.  The definitions below are therefore
modelled from the specification (§4.4) and the claims are settled against
them. -/

/-- Modelled from the spec: one historical check record of an endpoint
(`CheckEntry`, §3) — only the fields the scheduler reads. -/
structure CheckEntry where
  timestamp : Nat
  success : Bool
deriving DecidableEq, Repr

/-- Modelled from the spec: a registry entry's chronological check
history (`ProxyEntry.checks`, §3). -/
structure ProxyEntry where
  checks : List CheckEntry
deriving DecidableEq, Repr

/-- Scan a most-recent-first list, counting while `success` is false and
stopping at the first success. -/
def streakAux : List CheckEntry → Nat
  | [] => 0
  | c :: rest => if c.success then 0 else streakAux rest + 1

/-- Modelled from the spec: the consecutive-failure streak, computed by
scanning `checks` from the most recent entry backward (§4.4). -/
def failureStreak (checks : List CheckEntry) : Nat :=
  streakAux checks.reverse

/-- Modelled from the spec: the required inter-check interval in
milliseconds as a step function of the streak — 1 day for streak 0-6,
1 week for 7-29, 1 month (30 days) for ≥ 30 (§4.4). -/
def requiredIntervalMs (streak : Nat) : Nat :=
  if 30 ≤ streak then 2592000000
  else if 7 ≤ streak then 604800000
  else 86400000

/-- Modelled from the spec: `isDue(entry, now)` — always due when the
history is empty, else due iff the time elapsed since the last check is at
least the streak-determined interval (§4.4). -/
def isDue (entry : ProxyEntry) (now : Nat) : Bool :=
  match entry.checks.getLast? with
  | none => true
  | some last =>
      decide (requiredIntervalMs (failureStreak entry.checks) ≤ now - last.timestamp)

/-- The backward scan counts exactly the maximal all-failure suffix. -/
theorem streakAux_eq_takeWhile (l : List CheckEntry) :
    streakAux l = (l.takeWhile (fun c => !c.success)).length := by
  induction l with
  | nil => rfl
  | cons c rest ih =>
      by_cases h : c.success <;> simp [streakAux, List.takeWhile_cons, h, ih]

/-- C9: `isDue` is true on an empty history; otherwise it is true exactly
when the elapsed time since the last check reaches the interval determined
by the consecutive-failure streak, where the streak is the length of the
maximal failing suffix of the history and the interval is 1 day for
streaks up to 6, 1 week for 7-29, and 1 month from 30 on. -/
theorem isDue_spec (entry : ProxyEntry) (now : Nat) :
    (entry.checks = [] → isDue entry now = true)
    ∧ (∀ last, entry.checks.getLast? = some last →
        (isDue entry now = true ↔
          requiredIntervalMs (failureStreak entry.checks) ≤ now - last.timestamp))
    ∧ failureStreak entry.checks
        = ((entry.checks.reverse).takeWhile (fun c => !c.success)).length
    ∧ (failureStreak entry.checks ≤ 6 →
        requiredIntervalMs (failureStreak entry.checks) = 86400000)
    ∧ (7 ≤ failureStreak entry.checks → failureStreak entry.checks ≤ 29 →
        requiredIntervalMs (failureStreak entry.checks) = 604800000)
    ∧ (30 ≤ failureStreak entry.checks →
        requiredIntervalMs (failureStreak entry.checks) = 2592000000) := by
  refine ⟨?_, ?_, streakAux_eq_takeWhile _, ?_, ?_, ?_⟩
  · intro h
    simp [isDue, h]
  · intro last hlast
    simp [isDue, hlast]
  · intro h
    simp only [requiredIntervalMs]
    split_ifs <;> omega
  · intro h1 h2
    simp only [requiredIntervalMs]
    split_ifs <;> omega
  · intro h
    simp only [requiredIntervalMs]
    rw [if_pos h]

/-- Witness for C9, the spec's own monotonicity example: an entry with a
10-consecutive-failure streak (after an old success) is not due 2 days
after its last check but is due 8 days after. -/
theorem isDue_spec_witness :
    isDue ⟨[⟨1000, true⟩, ⟨2000, false⟩, ⟨3000, false⟩, ⟨4000, false⟩,
        ⟨5000, false⟩, ⟨6000, false⟩, ⟨7000, false⟩, ⟨8000, false⟩,
        ⟨9000, false⟩, ⟨10000, false⟩, ⟨11000, false⟩]⟩ (11000 + 8 * 86400000) = true
    ∧ isDue ⟨[⟨1000, true⟩, ⟨2000, false⟩, ⟨3000, false⟩, ⟨4000, false⟩,
        ⟨5000, false⟩, ⟨6000, false⟩, ⟨7000, false⟩, ⟨8000, false⟩,
        ⟨9000, false⟩, ⟨10000, false⟩, ⟨11000, false⟩]⟩ (11000 + 2 * 86400000) = false := by
  constructor
  · exact ((isDue_spec ⟨[⟨1000, true⟩, ⟨2000, false⟩, ⟨3000, false⟩, ⟨4000, false⟩,
      ⟨5000, false⟩, ⟨6000, false⟩, ⟨7000, false⟩, ⟨8000, false⟩,
      ⟨9000, false⟩, ⟨10000, false⟩, ⟨11000, false⟩]⟩ (11000 + 8 * 86400000)).2.1
      ⟨11000, false⟩ (by decide)).mpr (by decide)
  · have h := ((isDue_spec ⟨[⟨1000, true⟩, ⟨2000, false⟩, ⟨3000, false⟩, ⟨4000, false⟩,
      ⟨5000, false⟩, ⟨6000, false⟩, ⟨7000, false⟩, ⟨8000, false⟩,
      ⟨9000, false⟩, ⟨10000, false⟩, ⟨11000, false⟩]⟩ (11000 + 2 * 86400000)).2.1
      ⟨11000, false⟩ (by decide))
    rcases hb : isDue ⟨[⟨1000, true⟩, ⟨2000, false⟩, ⟨3000, false⟩, ⟨4000, false⟩,
        ⟨5000, false⟩, ⟨6000, false⟩, ⟨7000, false⟩, ⟨8000, false⟩,
        ⟨9000, false⟩, ⟨10000, false⟩, ⟨11000, false⟩]⟩ (11000 + 2 * 86400000)
    · rfl
    · exact absurd (h.mp hb) (by decide)

end OpexVPN
